import Mathlib

/-!
Verification of `src/session_keeper.py` (ebv_timer).

The program logs into a website through a Selenium driver and keeps the
session alive by refreshing the page on a timer.  We give a shallow
embedding of its control logic: the keepalive loop `keep_session_alive`
(lines 199-224), the login routine `login` (lines 83-174) with its
submit-control fallback chain, the orchestrator `run` (lines 226-248) with
its `try/finally` cleanup, the configuration loader `_load_config`
(lines 44-56), and the process entry point `main` (lines 258-268).

Effectful calls into the browser are modelled by oracles recording the
outcome of each call site, in program order; the unbounded `while True`
loop is modelled over a finite trace of cycle events, `none` standing for
"still running when the trace ran out".
-/

namespace SessionKeeper

/-! ## Keepalive loop (`keep_session_alive`, lines 199-224)

Each cycle of the `while True` loop sleeps, then attempts one page
refresh.  `refresh_page` (lines 188-197) catches every exception and
returns a boolean, so a cycle's refresh outcome is a `Bool`.  A
`KeyboardInterrupt` delivered at the sleep is caught by the
`except KeyboardInterrupt` handler (lines 222-224) and makes the loop
return `True`. -/

/-- One event of a keepalive cycle: the refresh attempt's outcome
(`refresh true` = `refresh_page` returned `True`), or a
`KeyboardInterrupt` delivered during the sleep preceding the attempt. -/
inductive Ev : Type
  | refresh (ok : Bool)
  | interrupt
deriving DecidableEq, Repr

/-- Embedding of the loop body of `keep_session_alive` (lines 206-224)
over a finite trace of cycle events.  `retryCount` is the running
`retry_count`; result `some true` is the `return True` of the
`KeyboardInterrupt` handler (STOPPED), `some false` the `return False`
after `retry_count >= max_retries` (FAILED, lines 218-220), and `none`
means the trace was exhausted with the loop still running.  Note the
budget check sits inside the failure branch (the `else` of line 214), so
it is evaluated only after a failed refresh. -/
def keepAlive (maxRetries : Nat) (retryCount : Nat) : List Ev → Option Bool
  | [] => none
  | Ev.interrupt :: _ => some true
  | Ev.refresh ok :: evs =>
    if ok then
      keepAlive maxRetries 0 evs
    else if maxRetries ≤ retryCount + 1 then
      some false
    else
      keepAlive maxRetries (retryCount + 1) evs

/-- Number of refresh attempts the loop performs on a trace (calls to
`driver.refresh()` at line 192, successful or not). -/
def keepAliveAttempts (maxRetries : Nat) (retryCount : Nat) : List Ev → Nat
  | [] => 0
  | Ev.interrupt :: _ => 0
  | Ev.refresh ok :: evs =>
    if ok then
      keepAliveAttempts maxRetries 0 evs + 1
    else if maxRetries ≤ retryCount + 1 then
      1
    else
      keepAliveAttempts maxRetries (retryCount + 1) evs + 1

/-- An interrupt-free trace: every cycle is a refresh with the given
outcome. -/
def refreshTrace (tr : List Bool) : List Ev :=
  tr.map Ev.refresh

/-- Length of the leading run of `false` (consecutive refresh failures at
the head of an outcome sequence). -/
def leadFails : List Bool → Nat
  | [] => 0
  | true :: _ => 0
  | false :: tr => leadFails tr + 1

/-- `hasRun n tr` holds when `tr` contains `n` consecutive `false`
outcomes with no interleaved `true`. -/
def hasRun (n : Nat) : List Bool → Bool
  | [] => decide (n = 0)
  | b :: tr => decide (n ≤ leadFails (b :: tr)) || hasRun n tr

/-- The refresh-outcome sequence of the spec's worked scenario:
[fail, fail, success, fail, fail, fail]. -/
def scenarioSeq : List Bool := [false, false, true, false, false, false]

/-! ## Login (`login`, lines 83-174)

The browser is an oracle giving the outcome of each driver call the
routine makes, and each located element carries the outcomes of the
operations performed on it.  A `none` / `false` outcome stands for the
call raising; every such exception inside `login`'s `try` is caught by
the handlers at lines 169-174, which return `False`. -/

/-- Outcomes of the operations `login` performs on a located element:
`clear()`, `send_keys(...)`, `click()`.  `false` = the call raises. -/
structure Element where
  clearOk : Bool
  sendKeysOk : Bool
  clickOk : Bool
deriving DecidableEq, Repr

/-- Oracle for the driver calls `login` makes, in program order:
`driver.get` (line 94), the `WebDriverWait`/`presence_of_element_located`
by name (lines 97-102, `none` = `TimeoutException`), `find_element` by
name / by id / by XPath (`none` = the call raises `NoSuchElement`), and
`driver.current_url` as read after the 3-second settle sleep
(lines 157-160). -/
structure Browser where
  getOk : String → Bool
  waitForName : String → Option Element
  findByName : String → Option Element
  findById : String → Option Element
  findByXPath : String → Option Element
  currentUrl : String

/-- `credentials` record of the configuration. -/
structure Credentials where
  username : String
  password : String
deriving DecidableEq, Repr

/-- `form_fields` record of the configuration; `submit_button` is read
with `form_fields.get('submit_button', '')` (line 115), so an absent key
is the empty string. -/
structure FormFields where
  username_field : String
  password_field : String
  submit_button : String
deriving DecidableEq, Repr

/-- `session_settings` record of the configuration. -/
structure SessionSettings where
  headless : Bool
  timeout : Nat
  refresh_interval : Nat
  max_retries : Nat
deriving DecidableEq, Repr

/-- A configuration in which every key the program reads is present
(the shape `login` and the keepalive loop assume). -/
structure Config where
  login_url : String
  session_url : String
  credentials : Credentials
  form_fields : FormFields
  session_settings : SessionSettings
deriving DecidableEq, Repr

/-- Embedding of the submit-control resolution of `login`
(lines 113-151): try the configured XPath when non-empty (lines 117-123,
its failure is caught and logged), then id `loginbtn` (lines 126-132),
then `//button[@type=\x27submit\x27]` (lines 134-140), then
`//input[@type=\x27submit\x27]` (lines 142-148); each guarded by
`if not submit_button`, so the first success wins. -/
def resolveSubmit (b : Browser) (submit_xpath : String) : Option Element :=
  let first : Option Element :=
    if submit_xpath ≠ "" then b.findByXPath submit_xpath else none
  match first with
  | some e => some e
  | none =>
    match b.findById "loginbtn" with
    | some e => some e
    | none =>
      match b.findByXPath "//button[@type=\x27submit\x27]" with
      | some e => some e
      | none => b.findByXPath "//input[@type=\x27submit\x27]"

/-- Embedding of `login` (lines 83-174).  Any raising step inside the
`try` — navigation, the waits and finds, element operations, the
all-locators-failed `raise` at line 151, the click — is caught at
lines 169-174 and yields `False`.  On the success path the result is the
URL-change check of lines 160-167: `True` exactly when
`driver.current_url != login_url` after the 3-second settle sleep. -/
def login (b : Browser) (cfg : Config) : Bool :=
  b.getOk cfg.login_url &&
    match b.waitForName cfg.form_fields.username_field with
    | none => false
    | some uf =>
      uf.clearOk && uf.sendKeysOk &&
        match b.findByName cfg.form_fields.password_field with
        | none => false
        | some pf =>
          pf.clearOk && pf.sendKeysOk &&
            match resolveSubmit b cfg.form_fields.submit_button with
            | none => false
            | some btn =>
              btn.clickOk &&
                (if b.currentUrl ≠ cfg.login_url then true else false)

/-! ## Orchestrator (`run`, lines 226-248; `cleanup`, lines 250-255) -/

/-- Outcome of one phase call as observed by `run`: the phase returned
`True`, returned `False`, or an exception escaped it (a
`KeyboardInterrupt`/`SystemExit` mid-phase, or a `KeyError` from a
config access placed outside the phase's `try`). -/
inductive PhaseOut : Type
  | t
  | f
  | exn
deriving DecidableEq, Repr

/-- Step of `run`, as recorded in its trace: `_setup_driver`
(lines 58-81, launches the browser), the three phase calls, and
`cleanup` (lines 250-255, releases the driver). -/
inductive Phase : Type
  | setup
  | login
  | navigate
  | keepalive
  | cleanup
deriving DecidableEq, Repr

/-- Per-run outcomes of the fallible calls `run` makes, in program
order.  `setupOk = false` stands for `_setup_driver` calling
`sys.exit(1)` (line 81), whose `SystemExit` propagates through `run`'s
`finally`. -/
structure RunEnv where
  setupOk : Bool
  loginOut : PhaseOut
  navOut : PhaseOut
  keepOut : PhaseOut
deriving DecidableEq, Repr

/-- Result of `run`: a returned boolean, or an exception propagating out
(after the `finally` block has executed). -/
inductive RunRes : Type
  | ret (b : Bool)
  | exn
deriving DecidableEq, Repr

/-- Embedding of `run` (lines 226-248): the result together with the
ordered trace of steps performed.  The `try/finally` appends
`Phase.cleanup` on every path, exceptional or not.  Note that the code
calls `keep_session_alive()` without using its return value and then
executes `return True` (lines 243-245). -/
def run (env : RunEnv) : RunRes × List Phase :=
  if env.setupOk = false then
    (RunRes.exn, [Phase.setup, Phase.cleanup])
  else
    match env.loginOut with
    | PhaseOut.f => (RunRes.ret false, [Phase.setup, Phase.login, Phase.cleanup])
    | PhaseOut.exn => (RunRes.exn, [Phase.setup, Phase.login, Phase.cleanup])
    | PhaseOut.t =>
      match env.navOut with
      | PhaseOut.f =>
        (RunRes.ret false,
          [Phase.setup, Phase.login, Phase.navigate, Phase.cleanup])
      | PhaseOut.exn =>
        (RunRes.exn,
          [Phase.setup, Phase.login, Phase.navigate, Phase.cleanup])
      | PhaseOut.t =>
        match env.keepOut with
        | PhaseOut.exn =>
          (RunRes.exn,
            [Phase.setup, Phase.login, Phase.navigate, Phase.keepalive,
              Phase.cleanup])
        | _ =>
          (RunRes.ret true,
            [Phase.setup, Phase.login, Phase.navigate, Phase.keepalive,
              Phase.cleanup])

/-! ## Configuration loading (`_load_config`, lines 44-56) and `main`
(lines 258-268)

A raw parsed configuration document may be missing any key; the loader
itself performs no key validation. -/

/-- A parsed `session_settings` object with possibly missing keys
(`headless` is read with `.get('headless', False)` at line 65, so it is
never required). -/
structure RawSettings where
  headless : Option Bool
  timeout : Option Nat
  refresh_interval : Option Nat
  max_retries : Option Nat
deriving DecidableEq, Repr

/-- A parsed `credentials` object with possibly missing keys. -/
structure RawCredentials where
  username : Option String
  password : Option String
deriving DecidableEq, Repr

/-- A parsed `form_fields` object with possibly missing keys
(`submit_button` is read with `.get('submit_button', '')` at line 115,
so it is never required). -/
structure RawFormFields where
  username_field : Option String
  password_field : Option String
  submit_button : Option String
deriving DecidableEq, Repr

/-- A parsed configuration document: any key, top-level or nested, may
be missing. -/
structure RawConfig where
  login_url : Option String
  session_url : Option String
  credentials : Option RawCredentials
  form_fields : Option RawFormFields
  session_settings : Option RawSettings
deriving DecidableEq, Repr

/-- What `open` + `json.load` yield for the configuration file: the file
is missing (`FileNotFoundError`), unparseable (`json.JSONDecodeError`),
or parses to a document. -/
inductive ConfigSource : Type
  | notFound
  | malformed
  | parsed (c : RawConfig)
deriving DecidableEq, Repr

/-- Embedding of `_load_config` (lines 44-56): `none` is `sys.exit(1)`
(missing file, lines 51-53, or JSON parse error, lines 54-56); a
successfully parsed document is returned as-is, with no validation of
its keys. -/
def loadConfig : ConfigSource → Option RawConfig
  | ConfigSource.notFound => none
  | ConfigSource.malformed => none
  | ConfigSource.parsed c => some c

/-- The required configuration keys per spec section 6: `login_url`,
`session_url`, `credentials.username`, `credentials.password`,
`form_fields.username_field`, `form_fields.password_field`,
`session_settings.timeout`, `session_settings.refresh_interval`,
`session_settings.max_retries`.  `submit_button` and `headless` are
optional (read with `.get` at lines 115 and 65). -/
def requiredPresent (c : RawConfig) : Bool :=
  c.login_url.isSome && c.session_url.isSome &&
    (match c.credentials with
     | none => false
     | some cr => cr.username.isSome && cr.password.isSome) &&
    (match c.form_fields with
     | none => false
     | some ff => ff.username_field.isSome && ff.password_field.isSome) &&
    (match c.session_settings with
     | none => false
     | some s =>
       s.timeout.isSome && s.refresh_interval.isSome && s.max_retries.isSome)

/-- Embedding of `login` over a raw document, tracking where each
configuration key is read.  Result `none`: a `KeyError` from one of the
accesses at lines 85-88 (`login_url`, `credentials`, `form_fields`,
`session_settings['timeout']`), which sit before the `try` and so escape
`login` uncaught.  Result `some r`: the routine entered its `try` and
returned `r`.  The inner-key accesses `form_fields['username_field']`
(line 101), `credentials['username']` (line 104),
`form_fields['password_field']` (line 108) and `credentials['password']`
(line 110) sit inside the `try`, so their `KeyError` is caught at
lines 172-174 and yields `False` like any other failing step;
`submit_button` is read with `.get` (line 115) and never raises. -/
def loginRaw (b : Browser) (c : RawConfig) : Option Bool :=
  match c.login_url with
  | none => none
  | some login_url =>
    match c.credentials with
    | none => none
    | some creds =>
      match c.form_fields with
      | none => none
      | some ff =>
        match c.session_settings with
        | none => none
        | some s =>
          match s.timeout with
          | none => none
          | some _ =>
            some (b.getOk login_url &&
              match ff.username_field with
              | none => false
              | some ufName =>
                match b.waitForName ufName with
                | none => false
                | some uf =>
                  uf.clearOk &&
                    match creds.username with
                    | none => false
                    | some _ =>
                      uf.sendKeysOk &&
                        match ff.password_field with
                        | none => false
                        | some pfName =>
                          match b.findByName pfName with
                          | none => false
                          | some pf =>
                            pf.clearOk &&
                              match creds.password with
                              | none => false
                              | some _ =>
                                pf.sendKeysOk &&
                                  match resolveSubmit b
                                      (ff.submit_button.getD "") with
                                  | none => false
                                  | some btn =>
                                    btn.clickOk &&
                                      (if b.currentUrl ≠ login_url then
                                        true
                                      else false))

/-- Outcomes of the driver calls made after a successful login:
`navigate_to_session_url`'s `driver.get` (line 181; an exception there
is caught at lines 184-186 and yields `False`) and the keepalive cycle
events. -/
structure LaterCalls where
  navOk : Bool
  cycles : List Ev

/-- The whole process over a configuration source, a browser oracle for
`login` and the later driver calls, assuming the Chrome launch itself
succeeds (driver-launch failure is the separate `sys.exit(1)` path
modelled by `RunEnv.setupOk`).  Result: `some (exitCode,
browserLaunched)`, or `none` when the keepalive loop is still running at
the end of its trace.  Access order: the constructor loads the
configuration (exit 1 on load failure, no browser); `_setup_driver`
reads `session_settings` (line 65) before launching Chrome (line 76);
`login` runs (`none` = uncaught `KeyError`); only on `True` does
`navigate_to_session_url` read `session_url` (line 178, before its
`try`); only on `True` again does `keep_session_alive` read
`refresh_interval` then `max_retries` (lines 201-202, before its `try`)
and loop.  `run` discards `keep_session_alive`'s result and returns
`True`, and `main` discards `run`'s result, so every returned boolean
exits with code 0; an uncaught exception exits with code 1 after `run`'s
`finally`. -/
def procRaw (src : ConfigSource) (b : Browser) (later : LaterCalls) :
    Option (Nat × Bool) :=
  match loadConfig src with
  | none => some (1, false)
  | some c =>
    match c.session_settings with
    | none => some (1, false)
    | some s =>
      match loginRaw b c with
      | none => some (1, true)
      | some false => some (0, true)
      | some true =>
        match c.session_url with
        | none => some (1, true)
        | some _ =>
          if later.navOk = false then some (0, true)
          else
            match s.refresh_interval with
            | none => some (1, true)
            | some _ =>
              match s.max_retries with
              | none => some (1, true)
              | some n =>
                match keepAlive n 0 later.cycles with
                | none => none
                | some _ => some (0, true)

/-- The raw document corresponding to a complete configuration. -/
def rawOf (cfg : Config) : RawConfig :=
  ⟨some cfg.login_url, some cfg.session_url,
    some ⟨some cfg.credentials.username, some cfg.credentials.password⟩,
    some ⟨some cfg.form_fields.username_field,
      some cfg.form_fields.password_field,
      some cfg.form_fields.submit_button⟩,
    some ⟨some cfg.session_settings.headless, some cfg.session_settings.timeout,
      some cfg.session_settings.refresh_interval,
      some cfg.session_settings.max_retries⟩⟩

/-- Embedding of the process exit code from `main` (lines 258-268):
`SessionKeeper('config.json')` loads the configuration in the
constructor (`sys.exit(1)` on load failure, before any driver exists),
then `keeper.run()` is called and its return value discarded, and `main`
returns normally (exit code 0).  An exception escaping `run`
(`SystemExit(1)` from `_setup_driver`, or an unexpected one) leaves the
interpreter with exit code 1. -/
def mainExit (src : ConfigSource) (env : RunEnv) : Nat :=
  match loadConfig src with
  | none => 1
  | some _ =>
    match (run env).1 with
    | RunRes.ret _ => 0
    | RunRes.exn => 1

/-! ## Sample data used by witnesses and counterexamples -/

/-- An element on which every operation succeeds. -/
def elemOk : Element := ⟨true, true, true⟩

/-- An element whose `click()` raises. -/
def elemNoClick : Element := ⟨true, true, false⟩

/-- A complete configuration whose `submit_button` XPath is
`//form/button`. -/
def cfgSample : Config :=
  ⟨"https://site/login", "https://site/app", ⟨"u", "p"⟩,
    ⟨"user", "pass", "//form/button"⟩, ⟨true, 5, 60, 3⟩⟩

/-- The same configuration with an empty `submit_button`. -/
def cfgEmptySubmit : Config :=
  ⟨"https://site/login", "https://site/app", ⟨"u", "p"⟩,
    ⟨"user", "pass", ""⟩, ⟨true, 5, 60, 3⟩⟩

/-- A browser run where the configured submit XPath matches and the
final URL is away from the login page. -/
def browserXPathHit : Browser :=
  ⟨fun _ => true, fun _ => some elemOk, fun _ => some elemOk,
    fun _ => none,
    fun s => if s = "//form/button" then some elemOk else none,
    "https://site/home"⟩

/-- A browser run where no submit locator matches anything. -/
def browserNoSubmit : Browser :=
  ⟨fun _ => true, fun _ => some elemOk, fun _ => some elemOk,
    fun _ => none, fun _ => none, "https://site/home"⟩

/-- A browser run where the submit control is found by id `loginbtn` and
everything succeeds. -/
def browserIdHit : Browser :=
  ⟨fun _ => true, fun _ => some elemOk, fun _ => some elemOk,
    fun _ => some elemOk, fun _ => none, "https://site/home"⟩

/-- A browser run identical to `browserIdHit` except that clicking the
located submit control raises; the reported URL is away from the login
page. -/
def browserClickRaises : Browser :=
  ⟨fun _ => true, fun _ => some elemOk, fun _ => some elemOk,
    fun _ => some elemNoClick, fun _ => none, "https://site/home"⟩

/-- A parsed configuration document that is complete except for a
missing `login_url`. -/
def rawMissingLoginUrl : RawConfig :=
  ⟨none, some "https://site/app", some ⟨some "u", some "p"⟩,
    some ⟨some "user", some "pass", some ""⟩,
    some ⟨some true, some 5, some 60, some 3⟩⟩

/-- A parsed configuration document that is complete except for a
missing `credentials.username`. -/
def rawMissingUsername : RawConfig :=
  ⟨some "https://site/login", some "https://site/app", some ⟨none, some "p"⟩,
    some ⟨some "user", some "pass", some ""⟩,
    some ⟨some true, some 5, some 60, some 3⟩⟩

/-- A complete parsed configuration document. -/
def rawComplete : RawConfig :=
  ⟨some "https://site/login", some "https://site/app", some ⟨some "u", some "p"⟩,
    some ⟨some "user", some "pass", some ""⟩,
    some ⟨some true, some 5, some 60, some 3⟩⟩

/-- Later driver calls that all succeed, with the keepalive run ending
in a user interrupt. -/
def laterAllOk : LaterCalls := ⟨true, [Ev.interrupt]⟩

/-- A run environment in which the driver launches, `login` returns
`False`, and the later phases would succeed. -/
def envLoginFail : RunEnv := ⟨true, PhaseOut.f, PhaseOut.t, PhaseOut.t⟩

/-! ## Helper lemmas -/

theorem hasRun_cons (n : Nat) (b : Bool) (tr : List Bool) :
    hasRun n (b :: tr) = true ↔
      (n ≤ leadFails (b :: tr) ∨ hasRun n tr = true) := by
  simp [hasRun]

theorem hasRun_of_le_leadFails {n : Nat} {tr : List Bool} (hn : 1 ≤ n)
    (h : n ≤ leadFails tr) : hasRun n tr = true := by
  cases tr with
  | nil =>
    simp [leadFails] at h
    omega
  | cons b tr =>
    rw [hasRun_cons]
    exact Or.inl h

/-- Invariant of the loop: starting from `retry_count = rc` with
`rc < N`, the loop reaches FAILED on an interrupt-free trace exactly
when either the leading failure run exhausts the remaining budget or a
full run of `N` consecutive failures occurs later. -/
theorem keepAlive_failed_iff_aux (N : Nat) (hN : 1 ≤ N) (tr : List Bool) :
    ∀ rc, rc < N →
      (keepAlive N rc (refreshTrace tr) = some false ↔
        (N ≤ rc + leadFails tr ∨ hasRun N tr = true)) := by
  induction tr with
  | nil =>
    intro rc hrc
    constructor
    · intro h
      simp [refreshTrace, keepAlive] at h
    · rintro (h | h)
      · exfalso
        simp [leadFails] at h
        omega
      · exfalso
        simp [hasRun] at h
        omega
  | cons b tr ih =>
    intro rc hrc
    have hrun := hasRun_cons N b tr
    cases b with
    | true =>
      have hstep : keepAlive N rc (refreshTrace (true :: tr))
          = keepAlive N 0 (refreshTrace tr) := by
        simp [refreshTrace, keepAlive]
      have hlead : leadFails (true :: tr) = 0 := rfl
      rw [hstep, ih 0 (by omega), hrun, hlead]
      constructor
      · rintro (h | h)
        · exact Or.inr (Or.inr (hasRun_of_le_leadFails hN (by omega)))
        · exact Or.inr (Or.inr h)
      · rintro (h | h | h)
        · exact absurd h (by omega)
        · exact absurd h (by omega)
        · exact Or.inr h
    | false =>
      have hlead : leadFails (false :: tr) = leadFails tr + 1 := rfl
      by_cases hle : N ≤ rc + 1
      · have hstep : keepAlive N rc (refreshTrace (false :: tr))
            = some false := by
          simp [refreshTrace, keepAlive, hle]
        rw [hstep, hrun, hlead]
        constructor
        · intro _
          left
          omega
        · intro _
          rfl
      · have hstep : keepAlive N rc (refreshTrace (false :: tr))
            = keepAlive N (rc + 1) (refreshTrace tr) := by
          simp [refreshTrace, keepAlive, hle]
        rw [hstep, ih (rc + 1) (by omega), hrun, hlead]
        constructor
        · rintro (h | h)
          · left
            omega
          · exact Or.inr (Or.inr h)
        · rintro (h | h | h)
          · left
            omega
          · left
            omega
          · exact Or.inr h

/-- With `retry_count = 0` and `N ≥ 1`, FAILED is reached exactly when
the outcome sequence contains `N` consecutive failures. -/
theorem keepAlive_failed_iff (N : Nat) (hN : 1 ≤ N) (tr : List Bool) :
    keepAlive N 0 (refreshTrace tr) = some false ↔ hasRun N tr = true := by
  rw [keepAlive_failed_iff_aux N hN tr 0 (by omega)]
  constructor
  · rintro (h | h)
    · exact hasRun_of_le_leadFails hN (by omega)
    · exact h
  · intro h
    exact Or.inr h

/-- If the loop is still running after `pre`, an interrupt at the next
sleep ends it with `True`, whatever follows. -/
theorem keepAlive_append_interrupt (N : Nat) (evs : List Ev) :
    ∀ (pre : List Ev) (rc : Nat), keepAlive N rc pre = none →
      keepAlive N rc (pre ++ Ev.interrupt :: evs) = some true := by
  intro pre
  induction pre with
  | nil =>
    intro rc _
    rfl
  | cons e p ih =>
    intro rc h
    cases e with
    | interrupt => simp [keepAlive] at h
    | refresh ok =>
      cases ok with
      | true =>
        have h' : keepAlive N 0 p = none := by
          simpa [keepAlive] using h
        simpa [keepAlive] using ih 0 h'
      | false =>
        by_cases hle : N ≤ rc + 1
        · simp [keepAlive, hle] at h
        · have h' : keepAlive N (rc + 1) p = none := by
            simpa [keepAlive, hle] using h
          simpa [keepAlive, hle] using ih (rc + 1) h'

/-- FAILED is only ever produced after some refresh in the trace has
actually failed. -/
theorem keepAlive_failed_has_failure (N : Nat) :
    ∀ (evs : List Ev) (rc : Nat), keepAlive N rc evs = some false →
      Ev.refresh false ∈ evs := by
  intro evs
  induction evs with
  | nil =>
    intro rc h
    simp [keepAlive] at h
  | cons e tl ih =>
    intro rc h
    cases e with
    | interrupt => simp [keepAlive] at h
    | refresh ok =>
      cases ok with
      | true =>
        have h' : keepAlive N 0 tl = some false := by
          simpa [keepAlive] using h
        exact List.mem_cons_of_mem _ (ih 0 h')
      | false => exact List.mem_cons_self _ _

/-- When the submit control cannot be resolved, `login` returns
`False` (the `raise` at line 151 is caught at lines 172-174). -/
theorem login_eq_false_of_no_submit (b : Browser) (cfg : Config)
    (hres : resolveSubmit b cfg.form_fields.submit_button = none) :
    login b cfg = false := by
  unfold login
  cases hg : b.getOk cfg.login_url
  · simp
  · cases hw : b.waitForName cfg.form_fields.username_field
    · simp
    · cases hp : b.findByName cfg.form_fields.password_field
      · simp
      · simp [hres]

/-- On a complete document, `loginRaw` agrees with the total-config
embedding `login`. -/
theorem loginRaw_complete (b : Browser) (cfg : Config) :
    loginRaw b (rawOf cfg) = some (login b cfg) := by
  simp only [loginRaw, rawOf, login, Option.getD_some, Bool.and_assoc]

/-- A `KeyError` escapes `login` uncaught exactly for the keys read
before its `try` (lines 85-88). -/
theorem loginRaw_none_of_missing_outer (b : Browser) (c : RawConfig)
    (h : c.login_url = none ∨ c.credentials = none ∨ c.form_fields = none ∨
      (∃ s, c.session_settings = some s ∧ s.timeout = none) ∨
      c.session_settings = none) :
    loginRaw b c = none := by
  rcases h with h | h | h | ⟨s, hs, ht⟩ | h
  · simp [loginRaw, h]
  · cases hlu : c.login_url with
    | none => simp [loginRaw, hlu]
    | some u => simp [loginRaw, hlu, h]
  · cases hlu : c.login_url with
    | none => simp [loginRaw, hlu]
    | some u =>
      cases hcr : c.credentials with
      | none => simp [loginRaw, hlu, hcr]
      | some cr => simp [loginRaw, hlu, hcr, h]
  · cases hlu : c.login_url with
    | none => simp [loginRaw, hlu]
    | some u =>
      cases hcr : c.credentials with
      | none => simp [loginRaw, hlu, hcr]
      | some cr =>
        cases hff : c.form_fields with
        | none => simp [loginRaw, hlu, hcr, hff]
        | some ff => simp [loginRaw, hlu, hcr, hff, hs, ht]
  · cases hlu : c.login_url with
    | none => simp [loginRaw, hlu]
    | some u =>
      cases hcr : c.credentials with
      | none => simp [loginRaw, hlu, hcr]
      | some cr =>
        cases hff : c.form_fields with
        | none => simp [loginRaw, hlu, hcr, hff]
        | some ff => simp [loginRaw, hlu, hcr, hff, h]

/-- With the keys of lines 85-88 present, `login` returns a boolean: no
exception escapes it. -/
theorem loginRaw_isSome_of_outer (b : Browser) (c : RawConfig)
    (u : String) (cr : RawCredentials) (ff : RawFormFields)
    (s : RawSettings) (t : Nat)
    (hlu : c.login_url = some u) (hcr : c.credentials = some cr)
    (hff : c.form_fields = some ff) (hss : c.session_settings = some s)
    (ht : s.timeout = some t) :
    (loginRaw b c).isSome = true := by
  simp [loginRaw, hlu, hcr, hff, hss, ht]

/-- `login` can only return `True` after actually reading every inner
credential and form-field key: a `True` result certifies their
presence. -/
theorem loginRaw_true_keys (b : Browser) (c : RawConfig)
    (h : loginRaw b c = some true) :
    c.login_url.isSome = true ∧
    (∃ cr, c.credentials = some cr ∧ cr.username.isSome = true ∧
      cr.password.isSome = true) ∧
    (∃ ff, c.form_fields = some ff ∧ ff.username_field.isSome = true ∧
      ff.password_field.isSome = true) ∧
    (∃ s, c.session_settings = some s ∧ s.timeout.isSome = true) := by
  obtain ⟨lu, su, cro, ffo, sso⟩ := c
  cases lu with
  | none => simp [loginRaw] at h
  | some u =>
    cases cro with
    | none => simp [loginRaw] at h
    | some cr =>
      cases ffo with
      | none => simp [loginRaw] at h
      | some ff =>
        cases sso with
        | none => simp [loginRaw] at h
        | some s =>
          cases htm : s.timeout with
          | none => simp [loginRaw, htm] at h
          | some t =>
            simp only [loginRaw, htm, Option.some.injEq,
              Bool.and_eq_true] at h
            obtain ⟨-, h⟩ := h
            cases hufn : ff.username_field with
            | none =>
              simp only [hufn] at h
              simp at h
            | some ufn =>
              simp only [hufn] at h
              cases hw : b.waitForName ufn with
              | none =>
                simp only [hw] at h
                simp at h
              | some uf =>
                simp only [hw, Bool.and_eq_true] at h
                obtain ⟨-, h⟩ := h
                cases hun : cr.username with
                | none =>
                  simp only [hun] at h
                  simp at h
                | some un =>
                  simp only [hun, Bool.and_eq_true] at h
                  obtain ⟨-, h⟩ := h
                  cases hpfn : ff.password_field with
                  | none =>
                    simp only [hpfn] at h
                    simp at h
                  | some pfn =>
                    simp only [hpfn] at h
                    cases hpf : b.findByName pfn with
                    | none =>
                      simp only [hpf] at h
                      simp at h
                    | some pf =>
                      simp only [hpf, Bool.and_eq_true] at h
                      obtain ⟨-, h⟩ := h
                      cases hpw : cr.password with
                      | none =>
                        simp only [hpw] at h
                        simp at h
                      | some pw =>
                        refine ⟨rfl, ⟨cr, rfl, ?_, ?_⟩,
                          ⟨ff, rfl, ?_, ?_⟩, ⟨s, rfl, ?_⟩⟩
                        · rw [hun]
                          rfl
                        · rw [hpw]
                          rfl
                        · rw [hufn]
                          rfl
                        · rw [hpfn]
                          rfl
                        · rw [htm]
                          rfl

/-! ## Claims -/

/-- C1 (counterexample): with `max_retries = 0` the claim fails.  The
counter starts at `0 = N`, and `0` consecutive failures have trivially
occurred, so the claim predicts an immediate exit with failure; but on
the outcome sequence `[success]` the loop neither exits before the
attempt nor after it — the budget check sits inside the failure branch,
so `retry_count >= max_retries` is never even evaluated. -/
theorem c1_counterexample :
    hasRun 0 [true] = true ∧
    keepAlive 0 0 (refreshTrace [true]) = none ∧
    keepAlive 0 0 (refreshTrace [true]) ≠ some false := by
  refine ⟨rfl, rfl, ?_⟩
  decide

/-- C1 (amended): for every `max_retries = N ≥ 1` and every refresh
outcome sequence, the loop reaches FAILED exactly when `N` consecutive
failures with no interleaved success occur; moreover each successful
refresh resets the counter to `0`, each failed refresh increments it and
the loop exits with failure as soon as the counter reaches `N`. -/
theorem c1_consecutive_failures (N : Nat) (hN : 1 ≤ N) (tr : List Bool)
    (rc : Nat) (evs : List Ev) :
    (keepAlive N 0 (refreshTrace tr) = some false ↔ hasRun N tr = true) ∧
    keepAlive N rc (Ev.refresh true :: evs) = keepAlive N 0 evs ∧
    (rc + 1 < N →
      keepAlive N rc (Ev.refresh false :: evs) = keepAlive N (rc + 1) evs) ∧
    (N ≤ rc + 1 → keepAlive N rc (Ev.refresh false :: evs) = some false) := by
  refine ⟨keepAlive_failed_iff N hN tr, by simp [keepAlive], ?_, ?_⟩
  · intro h
    have hle : ¬ N ≤ rc + 1 := by omega
    simp [keepAlive, hle]
  · intro h
    simp [keepAlive, h]

/-- C1 (witness): instance at `N = 1`, sequence `[fail]`. -/
theorem c1_witness :
    keepAlive 1 0 (refreshTrace [false]) = some false ↔
      hasRun 1 [false] = true :=
  (c1_consecutive_failures 1 (by decide) [false] 0 []).1

/-- C2: the submit control is resolved by trying, in order and stopping
at the first success, the configured locator as an XPath when non-empty,
the id `loginbtn`, `button[type=submit]`, `input[type=submit]`; when all
four fail, `login` returns `false`. -/
theorem c2_submit_fallback (b : Browser) (sb : String) (e : Element)
    (cfg : Config) (hcfg : cfg.form_fields.submit_button = sb) :
    (sb ≠ "" → b.findByXPath sb = some e → resolveSubmit b sb = some e) ∧
    ((sb = "" ∨ b.findByXPath sb = none) →
      b.findById "loginbtn" = some e → resolveSubmit b sb = some e) ∧
    ((sb = "" ∨ b.findByXPath sb = none) → b.findById "loginbtn" = none →
      b.findByXPath "//button[@type=\x27submit\x27]" = some e →
      resolveSubmit b sb = some e) ∧
    ((sb = "" ∨ b.findByXPath sb = none) → b.findById "loginbtn" = none →
      b.findByXPath "//button[@type=\x27submit\x27]" = none →
      b.findByXPath "//input[@type=\x27submit\x27]" = some e →
      resolveSubmit b sb = some e) ∧
    ((sb = "" ∨ b.findByXPath sb = none) → b.findById "loginbtn" = none →
      b.findByXPath "//button[@type=\x27submit\x27]" = none →
      b.findByXPath "//input[@type=\x27submit\x27]" = none →
      resolveSubmit b sb = none ∧ login b cfg = false) := by
  refine ⟨?_, ?_, ?_, ?_, ?_⟩
  · intro hne hx
    simp [resolveSubmit, hne, hx]
  · rintro (h | h) hid
    · simp [resolveSubmit, h, hid]
    · simp [resolveSubmit, h, hid]
  · rintro (h | h) hid hbtn
    · simp [resolveSubmit, h, hid, hbtn]
    · simp [resolveSubmit, h, hid, hbtn]
  · rintro (h | h) hid hbtn hinp
    · simp [resolveSubmit, h, hid, hbtn, hinp]
    · simp [resolveSubmit, h, hid, hbtn, hinp]
  · rintro (h | h) hid hbtn hinp
    · have hres : resolveSubmit b sb = none := by
        simp [resolveSubmit, h, hid, hbtn, hinp]
      exact ⟨hres, login_eq_false_of_no_submit b cfg (hcfg ▸ hres)⟩
    · have hres : resolveSubmit b sb = none := by
        simp [resolveSubmit, h, hid, hbtn, hinp]
      exact ⟨hres, login_eq_false_of_no_submit b cfg (hcfg ▸ hres)⟩

/-- C2 (witness): the configured XPath wins when it matches; with no
matching locator at all, resolution fails and `login` returns
`false`. -/
theorem c2_witness :
    resolveSubmit browserXPathHit cfgSample.form_fields.submit_button
        = some elemOk ∧
    resolveSubmit browserNoSubmit cfgEmptySubmit.form_fields.submit_button
        = none ∧
    login browserNoSubmit cfgEmptySubmit = false := by
  have h1 := (c2_submit_fallback browserXPathHit
    cfgSample.form_fields.submit_button elemOk cfgSample rfl).1
    (by decide) (by decide)
  have h2 := (c2_submit_fallback browserNoSubmit
    cfgEmptySubmit.form_fields.submit_button elemOk cfgEmptySubmit rfl).2.2.2.2
    (Or.inl rfl) rfl rfl rfl
  exact ⟨h1, h2.1, h2.2⟩

/-- C3 (counterexample): the claim omits the click on the resolved
control.  In this run navigation, both field fillings and submit-control
resolution all succeed, and the reported URL differs from `login_url`,
yet `login` returns `false` because `submit_button.click()` raises (the
exception is caught at lines 172-174). -/
theorem c3_counterexample :
    browserClickRaises.getOk cfgEmptySubmit.login_url = true ∧
    browserClickRaises.waitForName cfgEmptySubmit.form_fields.username_field
        = some elemOk ∧
    browserClickRaises.findByName cfgEmptySubmit.form_fields.password_field
        = some elemOk ∧
    resolveSubmit browserClickRaises cfgEmptySubmit.form_fields.submit_button
        = some elemNoClick ∧
    browserClickRaises.currentUrl ≠ cfgEmptySubmit.login_url ∧
    login browserClickRaises cfgEmptySubmit = false := by
  refine ⟨rfl, rfl, rfl, by decide, by decide, by decide⟩

/-- C3 (amended): when navigation, the field waits and fillings,
submit-control resolution and the click on the resolved control all
succeed, `login` returns `true` exactly when the URL reported after the
settle period differs from `login_url` — whatever the destination. -/
theorem c3_login_url_heuristic (b : Browser) (cfg : Config)
    (uf pf btn : Element)
    (hget : b.getOk cfg.login_url = true)
    (hw : b.waitForName cfg.form_fields.username_field = some uf)
    (hu1 : uf.clearOk = true) (hu2 : uf.sendKeysOk = true)
    (hp : b.findByName cfg.form_fields.password_field = some pf)
    (hp1 : pf.clearOk = true) (hp2 : pf.sendKeysOk = true)
    (hres : resolveSubmit b cfg.form_fields.submit_button = some btn)
    (hclick : btn.clickOk = true) :
    login b cfg = true ↔ b.currentUrl ≠ cfg.login_url := by
  unfold login
  rw [hget, hw, hp, hres]
  by_cases hurl : b.currentUrl = cfg.login_url
  · simp [hu1, hu2, hp1, hp2, hclick, hurl]
  · simp [hu1, hu2, hp1, hp2, hclick, hurl]

/-- C3 (witness): instance on a run where the control is found by id
`loginbtn` and the URL moved away from the login page. -/
theorem c3_witness :
    login browserIdHit cfgEmptySubmit = true ↔
      browserIdHit.currentUrl ≠ cfgEmptySubmit.login_url :=
  c3_login_url_heuristic browserIdHit cfgEmptySubmit elemOk elemOk elemOk
    rfl rfl rfl rfl rfl rfl rfl (by decide) rfl

/-- C4: a `KeyboardInterrupt` delivered at the sleep makes the loop
return `True` (STOPPED), never `False` (FAILED), whatever the running
failure count `rc` and wherever in the loop it happens: if the loop is
still running after a prefix of cycles, an interrupt at the next sleep
ends the whole run with `True`. -/
theorem c4_interrupt_stops (N rc : Nat) (rest pre evs : List Ev)
    (h : keepAlive N 0 pre = none) :
    keepAlive N rc (Ev.interrupt :: rest) = some true ∧
    keepAlive N 0 (pre ++ Ev.interrupt :: evs) = some true :=
  ⟨rfl, keepAlive_append_interrupt N evs pre 0 h⟩

/-- C4 (witness): interrupt after two of three allowed consecutive
failures. -/
theorem c4_witness :
    keepAlive 3 2 (Ev.interrupt :: []) = some true ∧
    keepAlive 3 0 (refreshTrace [false, false] ++ Ev.interrupt :: [])
        = some true :=
  c4_interrupt_stops 3 2 [] (refreshTrace [false, false]) [] (by decide)

/-- C5: whichever way `run` ends — login failure, navigation failure,
keepalive retry exhaustion, interruption (both are `keepOut` being a
returned boolean), or an exception escaping any phase (including the
`SystemExit` of a failed driver setup) — the `finally` block invokes
`cleanup` exactly once, and as the last step. -/
theorem c5_cleanup_exactly_once (env : RunEnv) :
    (run env).2.count Phase.cleanup = 1 ∧
    (run env).2.getLast? = some Phase.cleanup := by
  obtain ⟨so, lo, no, ko⟩ := env
  cases so <;> cases lo <;> cases no <;> cases ko <;> decide

/-- C6 (counterexample): a parseable configuration missing the required
field `credentials.username` refutes all three parts of the claim: the
loader does not fail (it returns the document unchanged), the browser is
launched, and the process exits with code 0, not non-zero — the
`KeyError` at line 104 is raised inside `login`'s `try`, caught at
lines 172-174, so `login` returns `False`, `run` returns `False` and
`main` discards that result. -/
theorem c6_counterexample :
    requiredPresent rawMissingUsername = false ∧
    loadConfig (ConfigSource.parsed rawMissingUsername)
        = some rawMissingUsername ∧
    procRaw (ConfigSource.parsed rawMissingUsername) browserIdHit laterAllOk
        = some (0, true) := by
  refine ⟨by decide, rfl, by decide⟩

/-- C6 (amended): the loader exits the process only for a missing or
unparseable file, and returns any parsed document unchanged with no key
validation.  A missing required field takes effect at its access site
(given that the Chrome launch itself succeeds): a missing
`session_settings` raises an uncaught `KeyError` in `_setup_driver`
before the browser is launched (exit 1, no browser interaction); a
missing `login_url`, `credentials`, `form_fields` or
`session_settings.timeout` is read outside `login`'s `try` after the
browser is launched, so its uncaught `KeyError` exits with code 1; a
missing `credentials.username`, `credentials.password`,
`form_fields.username_field` or `form_fields.password_field` is read
inside `login`'s `try`, its `KeyError` is caught, `login` returns
`False` and the process exits with code 0; `session_url`,
`refresh_interval` and `max_retries` are read only when the run reaches
them (then: uncaught `KeyError`, exit 1), and a run whose login returns
`False` exits 0 with such a key still missing and never read.  Whenever
a required field is missing, the run terminates — the unbounded
keepalive loop is never entered. -/
theorem c6_missing_key_behaviour (src : ConfigSource) (c : RawConfig)
    (b : Browser) (later : LaterCalls) :
    (loadConfig src = none ↔
      (src = ConfigSource.notFound ∨ src = ConfigSource.malformed)) ∧
    loadConfig (ConfigSource.parsed c) = some c ∧
    (c.session_settings = none →
      procRaw (ConfigSource.parsed c) b later = some (1, false)) ∧
    (c.session_settings.isSome = true →
      (c.login_url = none ∨ c.credentials = none ∨ c.form_fields = none ∨
        (∃ s, c.session_settings = some s ∧ s.timeout = none)) →
      procRaw (ConfigSource.parsed c) b later = some (1, true)) ∧
    (∀ u cr ff s t, c.login_url = some u → c.credentials = some cr →
      c.form_fields = some ff → c.session_settings = some s →
      s.timeout = some t →
      (cr.username = none ∨ cr.password = none ∨
        ff.username_field = none ∨ ff.password_field = none) →
      procRaw (ConfigSource.parsed c) b later = some (0, true)) ∧
    (c.session_settings.isSome = true → loginRaw b c = some false →
      procRaw (ConfigSource.parsed c) b later = some (0, true)) ∧
    (∀ s, c.session_settings = some s → loginRaw b c = some true →
      c.session_url = none →
      procRaw (ConfigSource.parsed c) b later = some (1, true)) ∧
    (∀ s su, c.session_settings = some s → loginRaw b c = some true →
      c.session_url = some su → later.navOk = true →
      (s.refresh_interval = none ∨
        (∃ ri, s.refresh_interval = some ri ∧ s.max_retries = none)) →
      procRaw (ConfigSource.parsed c) b later = some (1, true)) ∧
    (requiredPresent c = false →
      (procRaw (ConfigSource.parsed c) b later).isSome = true) := by
  refine ⟨?_, rfl, ?_, ?_, ?_, ?_, ?_, ?_, ?_⟩
  · cases src <;> simp [loadConfig]
  · intro h
    simp [procRaw, loadConfig, h]
  · intro hss h
    obtain ⟨s, hs⟩ := Option.isSome_iff_exists.mp hss
    have hnone : loginRaw b c = none := by
      refine loginRaw_none_of_missing_outer b c ?_
      rcases h with h | h | h | h
      · exact Or.inl h
      · exact Or.inr (Or.inl h)
      · exact Or.inr (Or.inr (Or.inl h))
      · exact Or.inr (Or.inr (Or.inr (Or.inl h)))
    simp [procRaw, loadConfig, hs, hnone]
  · intro u cr ff s t hlu hcr hff hss ht hinner
    have hsome := loginRaw_isSome_of_outer b c u cr ff s t hlu hcr hff hss ht
    obtain ⟨r, hr⟩ := Option.isSome_iff_exists.mp hsome
    cases r with
    | true =>
      exfalso
      obtain ⟨-, ⟨cr', hcr', hun, hpw⟩, ⟨ff', hff', hufn, hpfn⟩, -⟩ :=
        loginRaw_true_keys b c hr
      rw [hcr] at hcr'
      rw [hff] at hff'
      injection hcr' with e1
      subst e1
      injection hff' with e2
      subst e2
      rcases hinner with h | h | h | h
      · rw [h] at hun
        simp at hun
      · rw [h] at hpw
        simp at hpw
      · rw [h] at hufn
        simp at hufn
      · rw [h] at hpfn
        simp at hpfn
    | false => simp [procRaw, loadConfig, hss, hr]
  · intro hss hlf
    obtain ⟨s, hs⟩ := Option.isSome_iff_exists.mp hss
    simp [procRaw, loadConfig, hs, hlf]
  · intro s hss hlt hsu
    simp [procRaw, loadConfig, hss, hlt, hsu]
  · intro s su hss hlt hsu hnav hmiss
    rcases hmiss with h | ⟨ri, hri, hmr⟩
    · simp [procRaw, loadConfig, hss, hlt, hsu, hnav, h]
    · simp [procRaw, loadConfig, hss, hlt, hsu, hnav, hri, hmr]
  · intro hmiss
    cases hss : c.session_settings with
    | none => simp [procRaw, loadConfig, hss]
    | some s =>
      cases hlr : loginRaw b c with
      | none => simp [procRaw, loadConfig, hss, hlr]
      | some r =>
        cases r with
        | false => simp [procRaw, loadConfig, hss, hlr]
        | true =>
          obtain ⟨h1, ⟨cr, hcr, hun, hpw⟩, ⟨ff, hff, hufn, hpfn⟩,
            ⟨s', hss', htm⟩⟩ := loginRaw_true_keys b c hlr
          rw [hss] at hss'
          injection hss' with e
          subst e
          cases hsu : c.session_url with
          | none => simp [procRaw, loadConfig, hss, hlr, hsu]
          | some su =>
            cases hnav : later.navOk with
            | false => simp [procRaw, loadConfig, hss, hlr, hsu, hnav]
            | true =>
              cases hri : s.refresh_interval with
              | none =>
                simp [procRaw, loadConfig, hss, hlr, hsu, hnav, hri]
              | some ri =>
                cases hmr : s.max_retries with
                | none =>
                  simp [procRaw, loadConfig, hss, hlr, hsu, hnav, hri, hmr]
                | some mr =>
                  exfalso
                  have hall : requiredPresent c = true := by
                    simp [requiredPresent, h1, hsu, hcr, hff, hss, hun,
                      hpw, hufn, hpfn, htm, hri, hmr]
                  rw [hall] at hmiss
                  simp at hmiss

/-- C6 (witness): the missing-`login_url` document is returned unchanged
by the loader and exits 1 after the browser launch; the
missing-`credentials.username` document exits 0. -/
theorem c6_witness :
    loadConfig (ConfigSource.parsed rawMissingLoginUrl)
        = some rawMissingLoginUrl ∧
    procRaw (ConfigSource.parsed rawMissingLoginUrl) browserIdHit laterAllOk
        = some (1, true) ∧
    procRaw (ConfigSource.parsed rawMissingUsername) browserIdHit laterAllOk
        = some (0, true) :=
  ⟨(c6_missing_key_behaviour (ConfigSource.parsed rawMissingLoginUrl)
      rawMissingLoginUrl browserIdHit laterAllOk).2.1,
    (c6_missing_key_behaviour (ConfigSource.parsed rawMissingLoginUrl)
      rawMissingLoginUrl browserIdHit laterAllOk).2.2.2.1 rfl (Or.inl rfl),
    (c6_missing_key_behaviour (ConfigSource.parsed rawMissingUsername)
      rawMissingUsername browserIdHit laterAllOk).2.2.2.2.1
      "https://site/login" ⟨none, some "p"⟩
      ⟨some "user", some "pass", some ""⟩
      ⟨some true, some 5, some 60, some 3⟩ 5 rfl rfl rfl rfl rfl
      (Or.inl rfl)⟩

/-- C7 (counterexample): with a loadable configuration and a run in which
`login` returns `False`, the process still exits with code 0 — `run`
returns `False` but `main` discards that value — contradicting the
claimed non-zero exit code on login failure. -/
theorem c7_counterexample :
    envLoginFail.loginOut = PhaseOut.f ∧
    (run envLoginFail).1 = RunRes.ret false ∧
    mainExit (ConfigSource.parsed rawComplete) envLoginFail = 0 := by
  refine ⟨rfl, rfl, rfl⟩

/-- C7 (amended): the exit code is 0 on clean completion, clean
interruption, and equally on login failure, navigation failure and
keepalive exhaustion (`main` ignores `run`'s boolean); it is non-zero
exactly when configuration loading fails or an exception escapes `run`
(driver-setup `SystemExit` or an unexpected exception). -/
theorem c7_exit_codes (src : ConfigSource) (env : RunEnv) :
    (mainExit src env = 0 ↔
      (loadConfig src).isSome = true ∧ (run env).1 ≠ RunRes.exn) ∧
    (loadConfig src = none → mainExit src env = 1) ∧
    ((loadConfig src).isSome = true → env.setupOk = true →
      env.loginOut = PhaseOut.f → mainExit src env = 0) ∧
    ((loadConfig src).isSome = true → env.setupOk = true →
      env.loginOut = PhaseOut.t → env.navOut = PhaseOut.f →
      mainExit src env = 0) ∧
    ((loadConfig src).isSome = true → env.setupOk = true →
      env.loginOut = PhaseOut.t → env.navOut = PhaseOut.t →
      env.keepOut ≠ PhaseOut.exn → mainExit src env = 0) := by
  obtain ⟨so, lo, no, ko⟩ := env
  cases src <;> cases so <;> cases lo <;> cases no <;> cases ko <;>
    simp [mainExit, run, loadConfig]

/-- C7 (witness): a login-failure run exits with code 0, and a
missing-file configuration exits with code 1. -/
theorem c7_witness :
    mainExit (ConfigSource.parsed rawComplete) envLoginFail = 0 ∧
    mainExit ConfigSource.notFound envLoginFail = 1 :=
  ⟨(c7_exit_codes (ConfigSource.parsed rawComplete) envLoginFail).2.2.1
      rfl rfl rfl,
    (c7_exit_codes ConfigSource.notFound envLoginFail).2.1 rfl⟩

/-- C8: the phases run strictly in the order
setup → login → navigate → keepalive → cleanup (the trace is always a
sublist of that order); when `login` returns `False`, navigation and
keepalive are never attempted; when navigation returns `False`, the
keepalive loop is never entered. -/
theorem c8_phase_order (env : RunEnv) :
    List.Sublist (run env).2
      [Phase.setup, Phase.login, Phase.navigate, Phase.keepalive,
        Phase.cleanup] ∧
    (env.loginOut = PhaseOut.f →
      Phase.navigate ∉ (run env).2 ∧ Phase.keepalive ∉ (run env).2) ∧
    (env.navOut = PhaseOut.f → Phase.keepalive ∉ (run env).2) := by
  obtain ⟨so, lo, no, ko⟩ := env
  cases so <;> cases lo <;> cases no <;> cases ko <;>
    refine ⟨by decide, ?_, ?_⟩ <;> intro h <;> first | decide | cases h

/-- C8 (witness): in a login-failure run, navigation is absent from the
trace. -/
theorem c8_witness :
    Phase.navigate ∉ (run envLoginFail).2 ∧
    Phase.keepalive ∉ (run envLoginFail).2 :=
  (c8_phase_order envLoginFail).2.1 rfl

/-- C9: with `max_retries = 3` and refresh outcomes
[fail, fail, success, fail, fail, fail], the loop performs exactly 6
refresh attempts and ends FAILED, and it is still running after every
proper prefix — so FAILED arrives only with the final three consecutive
failures. -/
theorem c9_scenario :
    keepAlive 3 0 (refreshTrace scenarioSeq) = some false ∧
    keepAliveAttempts 3 0 (refreshTrace scenarioSeq) = 6 ∧
    keepAlive 3 0 (refreshTrace (scenarioSeq.take 1)) = none ∧
    keepAlive 3 0 (refreshTrace (scenarioSeq.take 2)) = none ∧
    keepAlive 3 0 (refreshTrace (scenarioSeq.take 3)) = none ∧
    keepAlive 3 0 (refreshTrace (scenarioSeq.take 4)) = none ∧
    keepAlive 3 0 (refreshTrace (scenarioSeq.take 5)) = none := by
  decide

/-- C10: the loop never returns FAILED before a refresh attempt has
actually failed — the budget check is evaluated only after a failed
refresh.  In particular with `max_retries = 0` the loop does not exit up
front: it still attempts a refresh, keeps running if that refresh
succeeds, and returns FAILED on the first failure (after exactly one
attempt). -/
theorem c10_failed_needs_failure (N : Nat) (evs : List Ev)
    (h : keepAlive N 0 evs = some false) :
    Ev.refresh false ∈ evs ∧
    keepAlive 0 0 [] = none ∧
    keepAlive 0 0 [Ev.refresh true] = none ∧
    keepAlive 0 0 [Ev.refresh false] = some false ∧
    keepAliveAttempts 0 0 [Ev.refresh false] = 1 :=
  ⟨keepAlive_failed_has_failure N evs 0 h, rfl, rfl, by decide, by decide⟩

/-- C10 (witness): instance on the one-failure trace at
`max_retries = 1`. -/
theorem c10_witness : Ev.refresh false ∈ [Ev.refresh false] :=
  (c10_failed_needs_failure 1 [Ev.refresh false] (by decide)).1

end SessionKeeper
